import Mathlib

/-!
Verification of the metrics-push subsystem of crates/sui-bridge/src/metrics.rs.

The file shallowly embeds the push subsystem: the configuration handling and
startup of start_metrics_push_task, the per-attempt pipeline push_metrics
(clock read, registry gather, timestamp stamping, protobuf serialization,
snappy compression, one HTTP POST), the scheduler loop that keeps or rebuilds
the MetricsPushClient, and the skip-missed-tick interval timer.

External collaborators (the prometheus encoder, the snap compressor, the
reqwest URL parser and HTTP client, and the tokio interval timer) are not part
of the repository; where a claim depends on them they are modelled from the
spec as explicit, executable definitions, each marked in its doc comment.
Outcomes of the external effects performed during one push attempt (system
clock, registry gather, encoder, compressor, transport) are supplied by a
PushEnv record, so the embedded push_metrics is a pure function of the
attempt's environment.
-/

/-! ## Data model: metric families and samples

Modelled from the spec: the prometheus protobuf data model (an external
library type). A MetricFamily has a name, a kind and labeled samples; each
sample has a label set, a value and a timestamp. Sample values are opaque to
every claim (no claim computes with them), so they are carried as integers. -/

structure Metric where
  labels : List (String × String)
  value : Int
  timestamp_ms : Int
deriving DecidableEq, BEq

structure MetricFamily where
  name : String
  kind : Nat
  metrics : List Metric
deriving DecidableEq, BEq

/-- Embeds prometheus Metric::set_timestamp_ms as used at metrics.rs:98. -/
def set_timestamp_ms (now : Int) (m : Metric) : Metric :=
  { m with timestamp_ms := now }

/-- The inner loop of metrics.rs:96-100: overwrite the timestamp of every
sample of one family with the collection instant. -/
def stampFamily (now : Int) (mf : MetricFamily) : MetricFamily :=
  { mf with metrics := mf.metrics.map (set_timestamp_ms now) }

/-- The loop of metrics.rs:96-100 over the whole gathered snapshot. -/
def stampAll (now : Int) (fams : List MetricFamily) : List MetricFamily :=
  fams.map (stampFamily now)

/-! ## Serialization

Modelled from the spec: the prometheus ProtobufEncoder (external library)
serializes the snapshot into a canonical binary wire format, family name,
type, labels, values and timestamp per sample. It is embedded as an
executable token-stream serializer with an exact decoder; the roundtrip law
below is what the claims about the payload rely on. -/

def encNat (n : Nat) : List Int := [(n : Int)]

def encInt (i : Int) : List Int := [i]

def encChars (cs : List Char) : List Int := cs.map fun c => (c.toNat : Int)

def encString (s : String) : List Int := (s.length : Int) :: encChars s.data

def encListTok (f : α → List Int) (xs : List α) : List Int :=
  (xs.length : Int) :: (xs.map f).flatten

def encLabel (p : String × String) : List Int := encString p.1 ++ encString p.2

def encMetric (m : Metric) : List Int :=
  encListTok encLabel m.labels ++ encInt m.value ++ encInt m.timestamp_ms

def encFamily (mf : MetricFamily) : List Int :=
  encString mf.name ++ encNat mf.kind ++ encListTok encMetric mf.metrics

def protobufEncode (fams : List MetricFamily) : List Int :=
  encListTok encFamily fams

def parseInt : List Int → Option (Int × List Int)
  | [] => none
  | t :: r => some (t, r)

def parseNat (l : List Int) : Option (Nat × List Int) :=
  (parseInt l).bind fun tr => if tr.1 < 0 then none else some (tr.1.toNat, tr.2)

def parseChars : Nat → List Int → Option (List Char × List Int)
  | 0, l => some ([], l)
  | _ + 1, [] => none
  | n + 1, t :: r =>
    (parseChars n r).bind fun cr => some (Char.ofNat t.toNat :: cr.1, cr.2)

def parseString (l : List Int) : Option (String × List Int) :=
  (parseNat l).bind fun nr =>
    (parseChars nr.1 nr.2).bind fun cr => some (String.mk cr.1, cr.2)

def parseCount (p : List Int → Option (α × List Int)) :
    Nat → List Int → Option (List α × List Int)
  | 0, l => some ([], l)
  | n + 1, l =>
    (p l).bind fun ar =>
      (parseCount p n ar.2).bind fun lr => some (ar.1 :: lr.1, lr.2)

def parseListTok (p : List Int → Option (α × List Int)) (l : List Int) :
    Option (List α × List Int) :=
  (parseNat l).bind fun nr => parseCount p nr.1 nr.2

def parseLabel (l : List Int) : Option ((String × String) × List Int) :=
  (parseString l).bind fun kr =>
    (parseString kr.2).bind fun vr => some ((kr.1, vr.1), vr.2)

def parseMetric (l : List Int) : Option (Metric × List Int) :=
  (parseListTok parseLabel l).bind fun lr =>
    (parseInt lr.2).bind fun vr =>
      (parseInt vr.2).bind fun tr =>
        some ({ labels := lr.1, value := vr.1, timestamp_ms := tr.1 }, tr.2)

def parseFamily (l : List Int) : Option (MetricFamily × List Int) :=
  (parseString l).bind fun nr =>
    (parseNat nr.2).bind fun kr =>
      (parseListTok parseMetric kr.2).bind fun mr =>
        some ({ name := nr.1, kind := kr.1, metrics := mr.1 }, mr.2)

def protobufDecode (l : List Int) : Option (List MetricFamily) :=
  (parseListTok parseFamily l).bind fun fr =>
    if fr.2 = [] then some fr.1 else none

/-! ## Compression

Modelled from the spec: the snap raw encoder (external library) performs a
lossless whole-buffer block compression with no streaming state between
calls. It is embedded as a whole-buffer transformation (an uncompressed
length header followed by the literal buffer, the degenerate snappy framing)
with an exact decompressor. -/

def snappyCompress (buf : List Int) : List Int := (buf.length : Int) :: buf

def snappyDecompress : List Int → Option (List Int)
  | [] => none
  | n :: rest => if n = (rest.length : Int) then some rest else none

/-- The encode pipeline of metrics.rs:95-110 applied to a gathered snapshot:
stamp every sample with the collection instant, serialize, compress. This is
the body of the request that push_metrics sends. -/
def encodePayload (snapshot : List MetricFamily) (now : Int) : List Int :=
  snappyCompress (protobufEncode (stampAll now snapshot))

/-- The inverse of the payload pipeline: decompress, then deserialize. -/
def decodePayload (p : List Int) : Option (List MetricFamily) :=
  (snappyDecompress p).bind protobufDecode

/-! ## The push attempt (metrics.rs:84-137)

push_metrics performs the effects of one attempt in order: read the system
clock, gather the registry snapshot, stamp all timestamps, serialize,
compress, send one POST, check the status. The outcome of each external
effect is supplied by a PushEnv record; the function returns the Result of
the attempt together with the trace of effects it performed, in order.
A pre-epoch system clock makes duration_since(UNIX_EPOCH) return Err, which
the source unwraps: that attempt panics, embedded as an outer none. -/

structure Url where
  scheme : String
  rest : String
deriving DecidableEq, BEq

structure Request where
  url : Url
  method : String
  headers : List (String × String)
  body : List Int
deriving DecidableEq, BEq

inductive PushError where
  | encodeError
  | compressError
  | transportError
  | statusError (status : Nat) (body : String)
deriving DecidableEq, BEq

inductive PushEvent where
  | clockRead
  | gatherCall
  | encodeCall
  | compressCall
  | sendCall (req : Request)
deriving DecidableEq, BEq

/-- The outcomes of the external effects one push attempt can perform.
clock_ms is the system clock as milliseconds since the Unix epoch, none when
the clock is before the epoch (duration_since returns Err); gathered is what
registry.gather_all() returns; encodeOk and compressOk tell whether the
prometheus encoder and the snap compressor succeed; sendResult is none on a
transport error and some status on a response; responseBody is the response
body text read for a non-2xx status. -/
structure PushEnv where
  clock_ms : Option Nat
  gathered : List MetricFamily
  encodeOk : Bool
  compressOk : Bool
  sendResult : Option Nat
  responseBody : String
deriving DecidableEq, BEq

/-- reqwest lowercases header names; the two headers set at metrics.rs:115-116. -/
def CONTENT_ENCODING : String := "content-encoding"

def CONTENT_TYPE : String := "content-type"

/-- Modelled from the spec: the protobuf metrics content type constant of the
prometheus library (PROTOBUF_FORMAT). -/
def PROTOBUF_FORMAT : String :=
  "application/vnd.google.protobuf; proto=io.prometheus.client.MetricFamily; encoding=delimited"

/-- reqwest StatusCode::is_success: a 2xx status. -/
def is_success (status : Nat) : Bool := 200 ≤ status && status < 300

/-- The as-i64 cast of the u128 millisecond count at metrics.rs:93: reduce
modulo 2^64 and reinterpret in two's complement. -/
def toI64 (n : Nat) : Int :=
  if n % 2 ^ 64 < 2 ^ 63 then ((n % 2 ^ 64 : Nat) : Int)
  else ((n % 2 ^ 64 : Nat) : Int) - 2 ^ 64

def push_metrics (url : Url) (env : PushEnv) :
    Option (Except PushError Unit) × List PushEvent :=
  match env.clock_ms with
  | none => (none, [PushEvent.clockRead])
  | some ms =>
    let now : Int := toI64 ms
    let metric_families := stampAll now env.gathered
    if env.encodeOk = false then
      (some (Except.error PushError.encodeError),
       [PushEvent.clockRead, PushEvent.gatherCall, PushEvent.encodeCall])
    else if env.compressOk = false then
      (some (Except.error PushError.compressError),
       [PushEvent.clockRead, PushEvent.gatherCall, PushEvent.encodeCall,
        PushEvent.compressCall])
    else
      let req : Request :=
        { url := url, method := "POST",
          headers := [(CONTENT_ENCODING, "snappy"), (CONTENT_TYPE, PROTOBUF_FORMAT)],
          body := snappyCompress (protobufEncode metric_families) }
      let trace := [PushEvent.clockRead, PushEvent.gatherCall, PushEvent.encodeCall,
                    PushEvent.compressCall, PushEvent.sendCall req]
      match env.sendResult with
      | none => (some (Except.error PushError.transportError), trace)
      | some status =>
        if is_success status then (some (Except.ok ()), trace)
        else (some (Except.error (PushError.statusError status env.responseBody)), trace)

/-- The network requests appearing in an effect trace, in order. -/
def sentRequests (tr : List PushEvent) : List Request :=
  tr.filterMap fun e =>
    match e with
    | PushEvent.sendCall r => some r
    | _ => none

/-! ## The scheduler loop (metrics.rs:139-155)

The loop owns one current MetricsPushClient. MetricsPushClient::new derives a
fresh self-signed certificate from the supplied network key on every call (it
is not memoized), so the client is embedded as the identity of its key
material plus a build counter; two builds are distinct clients even from the
same key. On any Err from push_metrics the loop rebuilds the client from the
original key (metrics.rs:148-152); the reqwest builder unwrap inside
MetricsPushClient::new (metrics.rs:36-39) panics when the builder fails,
embedded as buildOk in the tick environment. -/

structure MetricsPushClient where
  key : Nat
  gen : Nat
deriving DecidableEq, BEq

/-- MetricsPushClient::new(metrics_key_pair.copy()) on a rebuild: same key
material, fresh certificate and transport, hence a new build generation. -/
def rebuildClient (c : MetricsPushClient) : MetricsPushClient :=
  { key := c.key, gen := c.gen + 1 }

structure TickEnv where
  push : PushEnv
  buildOk : Bool
deriving DecidableEq, BEq

/-- One iteration of the scheduler loop body (metrics.rs:146-153): run the
push attempt, keep the client on Ok, rebuild it on Err. none embeds a panic
(pre-epoch clock inside the attempt, or a failed client build), which
terminates the spawned task. -/
def loopBody (url : Url) (client : MetricsPushClient) (t : TickEnv) :
    Option MetricsPushClient :=
  match (push_metrics url t.push).1 with
  | none => none
  | some (Except.ok _) => some client
  | some (Except.error _) =>
    if t.buildOk then some (rebuildClient client) else none

/-- The sequence of current clients across loop iterations, starting from the
client built at startup; the trace stops early only when an iteration
panics. -/
def clientTrace (url : Url) (c : MetricsPushClient) : List TickEnv → List MetricsPushClient
  | [] => [c]
  | t :: ts =>
    match loopBody url c t with
    | none => [c]
    | some c2 => c :: clientTrace url c2 ts

/-! ## Startup (metrics.rs:58-81 and 139) -/

/-- The configuration destructured at metrics.rs:67-71: an optional push
interval in seconds and a push URL string (the struct itself lives in the
crate's config module). -/
structure MetricsConfig where
  push_interval_seconds : Option Nat
  push_url : String
deriving DecidableEq, BEq

/-- Modelled from the spec: reqwest::Url::parse (external library) accepts an
absolute URL, a scheme of letters followed by :// and a nonempty remainder,
and rejects anything else. -/
def splitScheme : List Char → Option (List Char × List Char)
  | [] => none
  | c :: rest =>
    if c = ':' then
      match rest with
      | '/' :: '/' :: tail => some ([], tail)
      | _ => none
    else
      match splitScheme rest with
      | some (sch, tail) => some (c :: sch, tail)
      | none => none

def parseUrl (s : String) : Option Url :=
  match splitScheme s.data with
  | none => none
  | some (sch, rest) =>
    if !sch.isEmpty && sch.all Char.isAlpha && !rest.isEmpty then
      some { scheme := String.mk sch, rest := String.mk rest }
    else none

inductive StartEffect where
  | builtClient
  | spawnedTask
deriving DecidableEq, BEq

inductive StartResult where
  | disabled
  | panicked
  | started (interval_secs : Nat) (url : Url)
deriving DecidableEq, BEq

def DEFAULT_METRICS_PUSH_INTERVAL : Nat := 60

/-- start_metrics_push_task up to the spawn (metrics.rs:58-81, 139): with no
config it returns at once; with a config it computes the interval (default
60s), parses the URL with expect (a parse failure panics before any client is
built or task spawned), then builds the initial client and spawns the loop
task. The returned effect list records, in order, the side effects performed;
the interval timer and every network call live inside the spawned task. -/
def start_metrics_push_task (metrics_config : Option MetricsConfig) :
    StartResult × List StartEffect :=
  match metrics_config with
  | none => (StartResult.disabled, [])
  | some cfg =>
    let interval := cfg.push_interval_seconds.getD DEFAULT_METRICS_PUSH_INTERVAL
    match parseUrl cfg.push_url with
    | none => (StartResult.panicked, [])
    | some url =>
      (StartResult.started interval url,
       [StartEffect.builtClient, StartEffect.spawnedTask])

/-! ## The interval timer (metrics.rs:142-146)

Modelled from the spec: tokio::time::interval with
MissedTickBehavior::Skip (external library). The timer keeps the next
deadline; tick awaited at time now fires at the deadline when now is not past
it, and fires immediately otherwise, in which case the next deadline is
realigned to the first multiple of the period after now, dropping every
missed tick. -/

structure IntervalTimer where
  period : Nat
  deadline : Nat
deriving DecidableEq, BEq

def tick (tm : IntervalTimer) (now : Nat) : Nat × IntervalTimer :=
  if now ≤ tm.deadline then
    (tm.deadline, { period := tm.period, deadline := tm.deadline + tm.period })
  else
    (now, { period := tm.period,
            deadline := now + tm.period - (now - tm.deadline) % tm.period })

/-- The scheduler timeline: each entry of ds is the duration of one push
attempt; the result lists each attempt as its start time paired with its
duration. An attempt starts when tick fires and the next tick is awaited only
after the attempt completes (the loop body is sequential). -/
def runSched (tm : IntervalTimer) (now : Nat) : List Nat → List (Nat × Nat)
  | [] => []
  | d :: ds =>
    ((tick tm now).1, d) :: runSched (tick tm now).2 ((tick tm now).1 + d) ds

/-- Decidable check that every sample of every family carries exactly the
given timestamp. -/
def allTimestamps (fams : List MetricFamily) (ts : Int) : Bool :=
  fams.all fun mf => mf.metrics.all fun m => m.timestamp_ms == ts

/-! ## Roundtrip of the payload pipeline -/

theorem parseInt_enc (i : Int) (r : List Int) : parseInt (encInt i ++ r) = some (i, r) := rfl

theorem parseNat_enc (n : Nat) (r : List Int) : parseNat (encNat n ++ r) = some (n, r) := by
  have h : ¬ ((n : Int) < 0) := Int.not_lt.mpr (Int.natCast_nonneg n)
  simp [parseNat, encNat, parseInt, h]

theorem parseChars_enc (cs : List Char) (r : List Int) :
    parseChars cs.length (encChars cs ++ r) = some (cs, r) := by
  induction cs generalizing r with
  | nil => rfl
  | cons c cs ih =>
    have ih2 := ih r
    simp only [encChars, List.map_cons, List.cons_append, List.length_cons] at ih2 ⊢
    rw [parseChars, ih2]
    simp [Int.toNat_natCast, Char.ofNat_toNat]

theorem parseString_enc (s : String) (r : List Int) :
    parseString (encString s ++ r) = some (s, r) := by
  have h1 := parseNat_enc s.length (encChars s.data ++ r)
  have h2 := parseChars_enc s.data r
  have hl : s.data.length = s.length := rfl
  rw [hl] at h2
  simp only [encNat, List.cons_append, List.nil_append] at h1
  simp only [encString, List.cons_append, parseString]
  rw [h1]
  simp only [Option.some_bind]
  rw [h2]
  simp

theorem parseCount_enc (p : List Int → Option (α × List Int)) (f : α → List Int)
    (xs : List α) (r : List Int)
    (hp : ∀ x ∈ xs, ∀ r2, p (f x ++ r2) = some (x, r2)) :
    parseCount p xs.length ((xs.map f).flatten ++ r) = some (xs, r) := by
  induction xs generalizing r with
  | nil => rfl
  | cons x xs ih =>
    have hx := hp x (List.mem_cons_self x xs) ((xs.map f).flatten ++ r)
    have ih2 := ih r fun y hy r2 => hp y (List.mem_cons_of_mem x hy) r2
    simp only [List.map_cons, List.flatten_cons, List.append_assoc, List.length_cons]
    rw [parseCount, hx]
    simp only [Option.some_bind]
    rw [ih2]
    simp

theorem parseListTok_enc (p : List Int → Option (α × List Int)) (f : α → List Int)
    (xs : List α) (r : List Int)
    (hp : ∀ x ∈ xs, ∀ r2, p (f x ++ r2) = some (x, r2)) :
    parseListTok p (encListTok f xs ++ r) = some (xs, r) := by
  have h1 := parseNat_enc xs.length ((xs.map f).flatten ++ r)
  simp only [encNat, List.cons_append, List.nil_append] at h1
  simp only [encListTok, List.cons_append, parseListTok]
  rw [h1]
  simp only [Option.some_bind]
  exact parseCount_enc p f xs r hp

theorem parseLabel_enc (kv : String × String) (r : List Int) :
    parseLabel (encLabel kv ++ r) = some (kv, r) := by
  obtain ⟨k, v⟩ := kv
  simp only [encLabel, List.append_assoc, parseLabel]
  rw [parseString_enc]
  simp only [Option.some_bind]
  rw [parseString_enc]
  simp

theorem parseMetric_enc (m : Metric) (r : List Int) :
    parseMetric (encMetric m ++ r) = some (m, r) := by
  obtain ⟨labels, v, ts⟩ := m
  simp only [encMetric, List.append_assoc, parseMetric]
  rw [parseListTok_enc parseLabel encLabel labels _ fun x _ r2 => parseLabel_enc x r2]
  simp only [Option.some_bind, encInt, List.cons_append, List.nil_append]
  simp [parseInt]

theorem parseFamily_enc (mf : MetricFamily) (r : List Int) :
    parseFamily (encFamily mf ++ r) = some (mf, r) := by
  obtain ⟨nm, k, ms⟩ := mf
  simp only [encFamily, List.append_assoc, parseFamily]
  rw [parseString_enc]
  simp only [Option.some_bind]
  rw [parseNat_enc k (encListTok encMetric ms ++ r)]
  simp only [Option.some_bind]
  rw [parseListTok_enc parseMetric encMetric ms r fun x _ r2 => parseMetric_enc x r2]
  simp

theorem protobufDecode_encode (fams : List MetricFamily) :
    protobufDecode (protobufEncode fams) = some fams := by
  have h := parseListTok_enc parseFamily encFamily fams [] fun x _ r2 => parseFamily_enc x r2
  simp only [protobufEncode, protobufDecode]
  rw [← List.append_nil (encListTok encFamily fams), h]
  simp

theorem snappyDecompress_compress (buf : List Int) :
    snappyDecompress (snappyCompress buf) = some buf := by
  simp [snappyCompress, snappyDecompress]

theorem decodePayload_encodePayload (snapshot : List MetricFamily) (now : Int) :
    decodePayload (encodePayload snapshot now) = some (stampAll now snapshot) := by
  simp only [encodePayload, decodePayload, snappyDecompress_compress, Option.some_bind,
    protobufDecode_encode]

/-! ## Helper lemmas about the push attempt and the loop body -/

theorem push_metrics_fst_isSome (url : Url) (env : PushEnv) :
    (push_metrics url env).1.isSome = env.clock_ms.isSome := by
  rcases env with ⟨clock, gath, eok, cok, send, rb⟩
  cases clock with
  | none => rfl
  | some ms =>
    cases eok with
    | false => rfl
    | true =>
      cases cok with
      | false => rfl
      | true =>
        cases send with
        | none => rfl
        | some status =>
          by_cases hs : is_success status = true <;> simp [push_metrics, hs]

theorem loopBody_total (url : Url) (c : MetricsPushClient) (t : TickEnv)
    (hclock : t.push.clock_ms.isSome = true) (hbuild : t.buildOk = true) :
    ∃ c2, loopBody url c t = some c2 := by
  have h := push_metrics_fst_isSome url t.push
  rw [hclock] at h
  rcases ho : (push_metrics url t.push).1 with _ | out
  · rw [ho] at h
    simp at h
  · cases out with
    | ok u => exact ⟨c, by simp [loopBody, ho]⟩
    | error e => exact ⟨rebuildClient c, by simp [loopBody, ho, hbuild]⟩

/-! ## Helper lemmas about the interval timer -/

theorem tick_fire_ge (tm : IntervalTimer) (now : Nat) : now ≤ (tick tm now).1 := by
  unfold tick
  split <;> simp_all

theorem runSched_head_ge (tm : IntervalTimer) (now : Nat) (ds : List Nat) :
    ∀ p ∈ (runSched tm now ds).head?, now ≤ p.1 := by
  cases ds with
  | nil => simp [runSched]
  | cons d ds =>
    intro p hp2
    simp only [runSched, List.head?_cons, Option.mem_def, Option.some.injEq] at hp2
    rw [← hp2]
    exact tick_fire_ge tm now

theorem runSched_chain (ds : List Nat) (tm : IntervalTimer) (now : Nat) :
    List.Chain' (fun a b => a.1 + a.2 ≤ b.1) (runSched tm now ds) := by
  induction ds generalizing tm now with
  | nil => simp [runSched]
  | cons d ds ih =>
    rw [runSched, List.chain'_cons']
    refine ⟨fun y hy => ?_, ih _ _⟩
    simpa using runSched_head_ge (tick tm now).2 ((tick tm now).1 + d) ds y hy

/-! ## The claims -/

/-- C4: the timer has skip-missed-tick semantics: push attempts never
overlap, so at most one is in flight for any sequence of ticks (each attempt
starts no earlier than the previous one ended); and when an attempt completes
past the deadline, even by more than two intervals, the next tick fires
immediately exactly once: it fires at the completion instant and the
realigned deadline lies strictly after it, so missed ticks are dropped and
never queued. -/
theorem C4_skip_missed_ticks (tm : IntervalTimer) (now : Nat) (ds : List Nat)
    (hp : 0 < tm.period) :
    List.Chain' (fun a b => a.1 + a.2 ≤ b.1) (runSched tm now ds) ∧
    (tm.deadline < now →
      (tick tm now).1 = now ∧ now < ((tick tm now).2).deadline) := by
  refine ⟨runSched_chain ds tm now, fun hlt => ?_⟩
  have hn : ¬ (now ≤ tm.deadline) := by omega
  constructor
  · simp [tick, hn]
  · simp only [tick, if_neg hn]
    have hr : (now - tm.deadline) % tm.period < tm.period := Nat.mod_lt _ hp
    omega

/-- Witness for C4 at a concrete timer whose deadline was missed by more
than two periods. -/
theorem C4_skip_missed_ticks_witness :
    List.Chain' (fun a b => a.1 + a.2 ≤ b.1)
      (runSched { period := 60, deadline := 100 } 350 [150, 30]) ∧
    ((tick { period := 60, deadline := 100 } 350).1 = 350 ∧
      350 < ((tick { period := 60, deadline := 100 } 350).2).deadline) := by
  have h := C4_skip_missed_ticks { period := 60, deadline := 100 } 350 [150, 30] (by decide)
  exact ⟨h.1, h.2 (by decide)⟩

/-- C6: if no push configuration is supplied, start_metrics_push_task
returns at once in the disabled state with an empty effect trace: no timer,
no spawned task, no client build, no network call; being disabled is a
valid, effect-free state. -/
theorem C6_disabled_noop :
    start_metrics_push_task none = (StartResult.disabled, []) := rfl

/-- C7: a push_url string that does not parse as a URL makes startup panic
(a fatal configuration error) with an empty effect trace: the failure is
observable before any client is built and before any background task is
spawned, hence before any network call. -/
theorem C7_fail_fast_on_bad_url (cfg : MetricsConfig)
    (h : parseUrl cfg.push_url = none) :
    start_metrics_push_task (some cfg) = (StartResult.panicked, []) := by
  simp [start_metrics_push_task, h]

/-- Witness for C7 at the concrete configuration whose push_url is the
non-URL string "not a url". -/
theorem C7_fail_fast_on_bad_url_witness :
    start_metrics_push_task
        (some { push_interval_seconds := none, push_url := "not a url" }) =
      (StartResult.panicked, []) :=
  C7_fail_fast_on_bad_url
    { push_interval_seconds := none, push_url := "not a url" } (by decide)

/-- C9: with a parsable push_url, the scheduler tick interval is exactly 60
seconds when push_interval_seconds is absent (the default
DEFAULT_METRICS_PUSH_INTERVAL is 60 seconds) and exactly n seconds when it
is present with value n. -/
theorem C9_interval_configuration (cfg : MetricsConfig) (u : Url)
    (hurl : parseUrl cfg.push_url = some u) :
    DEFAULT_METRICS_PUSH_INTERVAL = 60 ∧
    (cfg.push_interval_seconds = none →
      start_metrics_push_task (some cfg) =
        (StartResult.started 60 u,
         [StartEffect.builtClient, StartEffect.spawnedTask])) ∧
    (∀ n, cfg.push_interval_seconds = some n →
      start_metrics_push_task (some cfg) =
        (StartResult.started n u,
         [StartEffect.builtClient, StartEffect.spawnedTask])) := by
  refine ⟨rfl, fun hnone => ?_, fun n hsome => ?_⟩
  · simp [start_metrics_push_task, hurl, hnone, DEFAULT_METRICS_PUSH_INTERVAL]
  · simp [start_metrics_push_task, hurl, hsome]

/-- Witness for C9 at two concrete configurations sharing the URL
https://host/path, one without an interval and one with 90 seconds. -/
theorem C9_interval_configuration_witness :
    start_metrics_push_task
        (some { push_interval_seconds := none, push_url := "https://host/path" }) =
      (StartResult.started 60 { scheme := "https", rest := "host/path" },
       [StartEffect.builtClient, StartEffect.spawnedTask]) ∧
    start_metrics_push_task
        (some { push_interval_seconds := some 90, push_url := "https://host/path" }) =
      (StartResult.started 90 { scheme := "https", rest := "host/path" },
       [StartEffect.builtClient, StartEffect.spawnedTask]) :=
  ⟨(C9_interval_configuration
      { push_interval_seconds := none, push_url := "https://host/path" }
      { scheme := "https", rest := "host/path" } (by decide)).2.1 rfl,
   (C9_interval_configuration
      { push_interval_seconds := some 90, push_url := "https://host/path" }
      { scheme := "https", rest := "host/path" } (by decide)).2.2 90 rfl⟩

/-- C5: for every snapshot, the encode pipeline overwrites the timestamp of
every sample in every metric family with the single push instant before
serialization: the produced payload decodes back to the stamped snapshot, in
which every sample carries exactly that timestamp regardless of the samples'
original timestamps. -/
theorem C5_timestamp_normalization (snapshot : List MetricFamily) (now : Int) :
    decodePayload (encodePayload snapshot now) = some (stampAll now snapshot) ∧
    allTimestamps (stampAll now snapshot) now = true := by
  refine ⟨decodePayload_encodePayload snapshot now, ?_⟩
  simp [allTimestamps, stampAll, stampFamily, set_timestamp_ms, List.all_eq_true,
    List.mem_map]

/-- C10: push_metrics computes the push timestamp by unwrapping
duration_since(UNIX_EPOCH) on the system clock: the attempt returns a value
exactly when the clock is at or after the Unix epoch (otherwise the unwrap
panics), the clock is read first and exactly once per attempt, and whenever
the read succeeds the registry snapshot is gathered only after it. -/
theorem C10_clock_unwrap_first (url : Url) (env : PushEnv) :
    ((push_metrics url env).1.isSome = env.clock_ms.isSome) ∧
    ((push_metrics url env).2.take 2 =
      if env.clock_ms.isSome then [PushEvent.clockRead, PushEvent.gatherCall]
      else [PushEvent.clockRead]) ∧
    ∃ rest, (push_metrics url env).2 = PushEvent.clockRead :: rest ∧
      PushEvent.clockRead ∉ rest := by
  refine ⟨push_metrics_fst_isSome url env, ?_, ?_⟩ <;>
    rcases env with ⟨clock, gath, eok, cok, send, rb⟩ <;>
    cases clock <;> cases eok <;> cases cok <;> cases send <;>
    first
      | rfl
      | exact ⟨_, rfl, by simp⟩
      | (rename_i status
         by_cases hs : is_success status = true <;>
           simp [push_metrics, hs])

theorem push_metrics_send_stage (url : Url) (env : PushEnv) (ms : Nat)
    (hc : env.clock_ms = some ms) (he : env.encodeOk = true)
    (hk : env.compressOk = true) :
    (push_metrics url env).2 =
      [PushEvent.clockRead, PushEvent.gatherCall, PushEvent.encodeCall,
       PushEvent.compressCall,
       PushEvent.sendCall
         { url := url, method := "POST",
           headers := [(CONTENT_ENCODING, "snappy"), (CONTENT_TYPE, PROTOBUF_FORMAT)],
           body := encodePayload env.gathered (toI64 ms) }] := by
  rcases env with ⟨clock, gath, eok, cok, send, rb⟩
  simp only at hc he hk
  subst hc he hk
  cases send with
  | none => rfl
  | some status =>
    by_cases hs : is_success status = true <;>
      simp [push_metrics, hs, encodePayload]

/-- C8: every push attempt that reaches the send stage performs exactly one
POST to the configured push_url carrying Content-Encoding snappy,
Content-Type the protobuf metrics content type, and as body the snappy
whole-buffer compression of the protobuf-serialized stamped snapshot; and no
attempt ever performs more than one network call, so there is no retry
within a single send. -/
theorem C8_wire_protocol (url : Url) (env : PushEnv) (ms : Nat)
    (hc : env.clock_ms = some ms) (he : env.encodeOk = true)
    (hk : env.compressOk = true) :
    sentRequests (push_metrics url env).2 =
      [{ url := url, method := "POST",
         headers := [(CONTENT_ENCODING, "snappy"), (CONTENT_TYPE, PROTOBUF_FORMAT)],
         body := encodePayload env.gathered (toI64 ms) }] ∧
    ∀ env2 : PushEnv, (sentRequests (push_metrics url env2).2).length ≤ 1 := by
  constructor
  · rw [push_metrics_send_stage url env ms hc he hk]
    simp [sentRequests]
  · intro env2
    rcases env2 with ⟨clock, gath, eok, cok, send, rb⟩
    cases clock with
    | none => simp [push_metrics, sentRequests]
    | some ms2 =>
      cases eok with
      | false => simp [push_metrics, sentRequests]
      | true =>
        cases cok with
        | false => simp [push_metrics, sentRequests]
        | true =>
          cases send with
          | none => simp [push_metrics, sentRequests]
          | some status =>
            by_cases hs : is_success status = true <;>
              simp [push_metrics, hs, sentRequests]

/-- Witness for C8 at a concrete attempt over one family with one sample
whose original timestamp 123 differs from the push instant. -/
theorem C8_wire_protocol_witness :
    sentRequests
        (push_metrics { scheme := "https", rest := "host/metrics" }
          { clock_ms := some 5,
            gathered := [{ name := "f", kind := 0,
                           metrics := [{ labels := [("a", "b")], value := 7,
                                         timestamp_ms := 123 }] }],
            encodeOk := true, compressOk := true, sendResult := some 500,
            responseBody := "err" }).2 =
      [{ url := { scheme := "https", rest := "host/metrics" }, method := "POST",
         headers := [(CONTENT_ENCODING, "snappy"), (CONTENT_TYPE, PROTOBUF_FORMAT)],
         body := encodePayload
           [{ name := "f", kind := 0,
              metrics := [{ labels := [("a", "b")], value := 7,
                            timestamp_ms := 123 }] }] (toI64 5) }] ∧
    ∀ env2 : PushEnv,
      (sentRequests
        (push_metrics { scheme := "https", rest := "host/metrics" } env2).2).length ≤ 1 :=
  C8_wire_protocol { scheme := "https", rest := "host/metrics" }
    { clock_ms := some 5,
      gathered := [{ name := "f", kind := 0,
                     metrics := [{ labels := [("a", "b")], value := 7,
                                   timestamp_ms := 123 }] }],
      encodeOk := true, compressOk := true, sendResult := some 500,
      responseBody := "err" } 5 rfl rfl rfl

/-- C1 counterexample: at a concrete tick whose push attempt fails with an
encode error, which is not a transport/response failure, the loop still
rebuilds the client, so rebuild-iff-transport/response-failure is false on
the code: metrics.rs:148-152 rebuilds on every Err from push_metrics. -/
theorem C1_counterexample_encode_error_rebuilds :
    (push_metrics { scheme := "https", rest := "host/metrics" }
        { clock_ms := some 0, gathered := [], encodeOk := false, compressOk := true,
          sendResult := some 200, responseBody := "" }).1 =
      some (Except.error PushError.encodeError) ∧
    loopBody { scheme := "https", rest := "host/metrics" } { key := 0, gen := 0 }
        { push := { clock_ms := some 0, gathered := [], encodeOk := false,
                    compressOk := true, sendResult := some 200, responseBody := "" },
          buildOk := true } =
      some { key := 0, gen := 1 } ∧
    ({ key := 0, gen := 1 } : MetricsPushClient) ≠ { key := 0, gen := 0 } :=
  ⟨rfl, rfl, by decide⟩

/-- C1 (amended): for every per-tick error, of any kind, the PushClient is
eagerly rebuilt from the original key material: when the loop body completes,
a rebuild occurred if and only if the push attempt returned an error, whether
a transport/response failure or an encode (serialization/compression) error,
and the rebuilt client keeps the original key material. -/
theorem C1_rebuild_iff_any_error (url : Url) (c c2 : MetricsPushClient)
    (t : TickEnv) (h : loopBody url c t = some c2) :
    (c2 ≠ c ↔ ∃ e, (push_metrics url t.push).1 = some (Except.error e)) ∧
    (∀ e, (push_metrics url t.push).1 = some (Except.error e) →
      c2 = rebuildClient c ∧ c2.key = c.key) := by
  rcases ho : (push_metrics url t.push).1 with _ | out
  · simp [loopBody, ho] at h
  · cases out with
    | ok u =>
      simp only [loopBody, ho, Option.some.injEq] at h
      subst h
      constructor
      · constructor
        · intro hne
          exact absurd rfl hne
        · rintro ⟨e, he⟩
          simp at he
      · intro e he
        simp at he
    | error e0 =>
      simp only [loopBody, ho] at h
      split at h
      · obtain ⟨ck, cg⟩ := c
        simp only [Option.some.injEq] at h
        subst h
        refine ⟨⟨fun _ => ⟨e0, rfl⟩, fun _ => ?_⟩, fun e he => ⟨rfl, rfl⟩⟩
        simp [rebuildClient]
      · cases h

/-- Witness for C1 at a concrete tick whose attempt hits a transport error. -/
theorem C1_rebuild_iff_any_error_witness :
    (({ key := 0, gen := 1 } : MetricsPushClient) ≠ { key := 0, gen := 0 } ↔
      ∃ e, (push_metrics { scheme := "https", rest := "h" }
        { clock_ms := some 0, gathered := [], encodeOk := true, compressOk := true,
          sendResult := none, responseBody := "" }).1 = some (Except.error e)) ∧
    (∀ e, (push_metrics { scheme := "https", rest := "h" }
        { clock_ms := some 0, gathered := [], encodeOk := true, compressOk := true,
          sendResult := none, responseBody := "" }).1 = some (Except.error e) →
      ({ key := 0, gen := 1 } : MetricsPushClient) =
        rebuildClient { key := 0, gen := 0 } ∧
      ({ key := 0, gen := 1 } : MetricsPushClient).key =
        ({ key := 0, gen := 0 } : MetricsPushClient).key) :=
  C1_rebuild_iff_any_error { scheme := "https", rest := "h" }
    { key := 0, gen := 0 } { key := 0, gen := 1 }
    { push := { clock_ms := some 0, gathered := [], encodeOk := true,
                compressOk := true, sendResult := none, responseBody := "" },
      buildOk := true } rfl

/-- C2 counterexample: two per-attempt outcomes are not caught by the loop:
a pre-epoch system clock makes the timestamp unwrap at metrics.rs:90-92
panic, and a failed client rebuild makes the builder unwrap at
metrics.rs:36-39 panic; in both concrete cases the loop body terminates the
task instead of reaching the next tick. -/
theorem C2_counterexample_panic_paths :
    loopBody { scheme := "https", rest := "h" } { key := 0, gen := 0 }
        { push := { clock_ms := none, gathered := [], encodeOk := true,
                    compressOk := true, sendResult := some 200, responseBody := "" },
          buildOk := true } = none ∧
    loopBody { scheme := "https", rest := "h" } { key := 0, gen := 0 }
        { push := { clock_ms := some 0, gathered := [], encodeOk := true,
                    compressOk := true, sendResult := none, responseBody := "" },
          buildOk := false } = none :=
  ⟨rfl, rfl⟩

/-- C2 (amended): provided the system clock is at or after the Unix epoch at
every tick and every client rebuild succeeds, no error originating inside a
push attempt is surfaced outside the scheduler loop: every gather, encode,
compress, send or status failure is caught and the task reaches each
following tick, processing the whole tick sequence (one client state per
tick plus the initial one); without those provisos the unwraps panic and the
background task stops. -/
theorem C2_attempt_errors_contained (url : Url) (c : MetricsPushClient)
    (ts : List TickEnv)
    (h : ∀ t ∈ ts, t.push.clock_ms.isSome = true ∧ t.buildOk = true) :
    (clientTrace url c ts).length = ts.length + 1 := by
  induction ts generalizing c with
  | nil => rfl
  | cons t ts ih =>
    obtain ⟨hc, hb⟩ := h t (List.mem_cons_self t ts)
    obtain ⟨c2, hl⟩ := loopBody_total url c t hc hb
    have htail := ih c2 fun y hy => h y (List.mem_cons_of_mem t hy)
    simp [clientTrace, hl, htail]

/-- Witness for C2 at a concrete two-tick sequence, a 500 response then a
200 response: both ticks are processed. -/
theorem C2_attempt_errors_contained_witness :
    (clientTrace { scheme := "https", rest := "h" } { key := 0, gen := 0 }
      [{ push := { clock_ms := some 1, gathered := [], encodeOk := true,
                   compressOk := true, sendResult := some 500, responseBody := "b" },
         buildOk := true },
       { push := { clock_ms := some 2, gathered := [], encodeOk := true,
                   compressOk := true, sendResult := some 200, responseBody := "" },
         buildOk := true }]).length = 2 + 1 :=
  C2_attempt_errors_contained { scheme := "https", rest := "h" }
    { key := 0, gen := 0 } _
    (by
      intro t ht
      rcases List.mem_cons.mp ht with rfl | ht2
      · exact ⟨rfl, rfl⟩
      · rcases List.mem_cons.mp ht2 with rfl | ht3
        · exact ⟨rfl, rfl⟩
        · exact absurd ht3 (List.not_mem_nil t))

/-- C3: exactly one PushClient is current at any time and is threaded
through the loop: after a successful (2xx) push the current client is kept
and the next iteration continues with the same client; after a failed push,
when the rebuild succeeds, the client is replaced before the next tick by a
freshly built client from the same key material, distinct from the failed
one, and the next iteration continues with the replacement, so a failed
client is never used for a subsequent attempt. -/
theorem C3_client_lifecycle (url : Url) (c : MetricsPushClient) (t : TickEnv)
    (ts : List TickEnv) :
    ((push_metrics url t.push).1 = some (Except.ok ()) →
      loopBody url c t = some c ∧
      clientTrace url c (t :: ts) = c :: clientTrace url c ts) ∧
    (∀ e, (push_metrics url t.push).1 = some (Except.error e) → t.buildOk = true →
      loopBody url c t = some (rebuildClient c) ∧
      rebuildClient c ≠ c ∧ (rebuildClient c).key = c.key ∧
      clientTrace url c (t :: ts) = c :: clientTrace url (rebuildClient c) ts) := by
  constructor
  · intro ho
    have hl : loopBody url c t = some c := by simp [loopBody, ho]
    exact ⟨hl, by simp [clientTrace, hl]⟩
  · intro e ho hb
    have hl : loopBody url c t = some (rebuildClient c) := by simp [loopBody, ho, hb]
    refine ⟨hl, ?_, rfl, by simp [clientTrace, hl]⟩
    obtain ⟨ck, cg⟩ := c
    simp [rebuildClient]

/-- Witness for C3 at a concrete failed tick (a 500 response): the next
iteration runs with the rebuilt client, not the failed one. -/
theorem C3_client_lifecycle_witness :
    loopBody { scheme := "https", rest := "h" } { key := 0, gen := 0 }
        { push := { clock_ms := some 0, gathered := [], encodeOk := true,
                    compressOk := true, sendResult := some 500, responseBody := "b" },
          buildOk := true } =
      some (rebuildClient { key := 0, gen := 0 }) ∧
    rebuildClient { key := 0, gen := 0 } ≠ { key := 0, gen := 0 } ∧
    (rebuildClient { key := 0, gen := 0 }).key =
      ({ key := 0, gen := 0 } : MetricsPushClient).key ∧
    clientTrace { scheme := "https", rest := "h" } { key := 0, gen := 0 }
        [{ push := { clock_ms := some 0, gathered := [], encodeOk := true,
                     compressOk := true, sendResult := some 500, responseBody := "b" },
           buildOk := true }] =
      { key := 0, gen := 0 } ::
        clientTrace { scheme := "https", rest := "h" }
          (rebuildClient { key := 0, gen := 0 }) [] :=
  (C3_client_lifecycle { scheme := "https", rest := "h" } { key := 0, gen := 0 }
      { push := { clock_ms := some 0, gathered := [], encodeOk := true,
                  compressOk := true, sendResult := some 500, responseBody := "b" },
        buildOk := true } []).2
    (PushError.statusError 500 "b") rfl rfl
